import Mathlib

/-!
Verification of the aggregation/filtering pipeline of the Week-03 EDA
dashboards (superstore and MovieLens).  Each definition is a shallow
embedding of a function or inline computation from the repository:
tables are lists of rows, pandas null is `Option.none`, machine floats
are modelled by `ℚ` (and by `ℝ` where a square root occurs).
-/

namespace Dashboards

/-- A superstore line item as used by `filter_data` and the KPI
computations in `georgios_dashboard/superstore_dashboard.py`. -/
structure SRow where
  orderYear : Int
  region : String
  category : String
  sales : ℚ
  orderId : String
  customerId : String
deriving DecidableEq

/-- Embeds the pattern `if selected_xs: df = df[df[col].isin(selected_xs)]`
from `superstore_dashboard.py` (filter_data) and `ishrats_dashboard/app.py`
(filter_frame): an empty selection list is falsy in Python, so the table
passes through unchanged; a non-empty selection keeps the rows whose
column value is a member of the selection. -/
def filterBySelection (sel : List String) (get : SRow → String) (t : List SRow) :
    List SRow :=
  if sel = [] then t else t.filter (fun r => sel.contains (get r))

/-- Embeds `if selected_year: df = df[df['Order Year'] == selected_year]`
(`None` when no year is chosen). -/
def filterByYear (year : Option Int) (t : List SRow) : List SRow :=
  match year with
  | none => t
  | some y => t.filter (fun r => r.orderYear == y)

/-- The raw-data filter cascade of `filter_data`
(`superstore_dashboard.py` lines 139-148): year, then region, then
category, composed by conjunction. -/
def filterRaw (t : List SRow) (year : Option Int)
    (regions categories : List String) : List SRow :=
  filterBySelection categories (fun r => r.category)
    (filterBySelection regions (fun r => r.region) (filterByYear year t))

/-- Group-by over a nullable key, as pandas `groupby(col, dropna=...)`:
the distinct key values present in the table each map to the list of
rows carrying that value; with `dropna = true` the null key group is
discarded, with `dropna = false` the null keys form their own group. -/
def groupByKey {R K : Type*} [DecidableEq K] (dropna : Bool)
    (key : R → Option K) (t : List R) : List (Option K × List R) :=
  let ks := (t.map key).dedup
  let ks := if dropna then ks.filter (fun k => k != none) else ks
  ks.map (fun k => (k, t.filter (fun r => key r == k)))

/-- The per-group `count` / `.size()` metric: the number of rows of the
group (`Thasmia-dashboard/app.py` `.size()`, lines 70-76). -/
def groupSizes {R K : Type*} [DecidableEq K] (dropna : Bool)
    (key : R → Option K) (t : List R) : List Nat :=
  (groupByKey dropna key t).map (fun g => g.2.length)

lemma length_filter_key_eq {R K : Type*} [DecidableEq K]
    (key : R → Option K) (t : List R) (k : Option K) :
    (t.filter (fun r => key r == k)).length
      = @List.count (Option K) instBEqOfDecidableEq k (t.map key) := by
  rw [← List.countP_eq_length_filter]
  show List.countP (fun r => key r == k) t
      = List.countP (fun x => decide (x = k)) (t.map key)
  rw [List.countP_map]
  refine List.countP_congr (fun r _ => ?_)
  by_cases h : key r = k <;> simp [h, Function.comp]

lemma sum_map_length_filter_key {R K : Type*} [DecidableEq K]
    (key : R → Option K) (t : List R) (ks : List (Option K)) :
    (ks.map (fun k => (t.filter (fun r => key r == k)).length)).sum =
      (ks.map (fun k =>
        @List.count (Option K) instBEqOfDecidableEq k (t.map key))).sum := by
  congr 1
  exact List.map_congr_left (fun k _ => length_filter_key_eq key t k)

lemma sum_groupSizes_false {R K : Type*} [DecidableEq K]
    (key : R → Option K) (t : List R) :
    (groupSizes false key t).sum = t.length := by
  unfold groupSizes groupByKey
  show (((t.map key).dedup.map
      (fun k => (k, t.filter (fun r => key r == k)))).map
      (fun g => g.2.length)).sum = t.length
  rw [List.map_map]
  have h := sum_map_length_filter_key key t ((t.map key).dedup)
  calc (((t.map key).dedup).map
        ((fun g : Option K × List R => g.2.length) ∘
          (fun k => (k, t.filter (fun r => key r == k))))).sum
      = (((t.map key).dedup).map (fun k =>
          @List.count (Option K) instBEqOfDecidableEq k (t.map key))).sum := h
    _ = (t.map key).length := List.sum_map_count_dedup_eq_length (t.map key)
    _ = t.length := List.length_map t key

lemma sum_groupSizes_true {R K : Type*} [DecidableEq K]
    (key : R → Option K) (t : List R) :
    (groupSizes true key t).sum =
      (t.filter (fun r => key r != none)).length := by
  unfold groupSizes groupByKey
  show ((((t.map key).dedup.filter (fun k => k != none)).map
      (fun k => (k, t.filter (fun r => key r == k)))).map
      (fun g => g.2.length)).sum = _
  rw [List.map_map]
  have h := sum_map_length_filter_key key t
    ((t.map key).dedup.filter (fun k => k != none))
  calc (((t.map key).dedup.filter (fun k => k != none)).map
        ((fun g : Option K × List R => g.2.length) ∘
          (fun k => (k, t.filter (fun r => key r == k))))).sum
      = (((t.map key).dedup.filter (fun k => k != none)).map (fun k =>
          @List.count (Option K) instBEqOfDecidableEq k (t.map key))).sum := h
    _ = List.countP (fun k => k != none) (t.map key) :=
        List.sum_map_count_dedup_filter_eq_countP (fun k => k != none) (t.map key)
    _ = (t.filter (fun r => key r != none)).length := by
        rw [List.countP_map, ← List.countP_eq_length_filter]
        rfl

/-- C2: summing the per-group `count` metric over the groups produced by
group-by recovers exactly the number of rows of the input table: every
row lands in exactly one group.  With `dropna = false` (null key values
form their own group, as in `Thasmia-dashboard/app.py` lines 70-76) the
sum is the full row count; with `dropna = true` the sum counts exactly
the rows whose key is non-null, i.e. null-keyed rows are excluded and
every other row is counted once. -/
theorem grouping_partitions_rows {R K : Type*} [DecidableEq K]
    (key : R → Option K) (t : List R) :
    (groupSizes false key t).sum = t.length ∧
    (groupSizes true key t).sum = (t.filter (fun r => key r != none)).length :=
  ⟨sum_groupSizes_false key t, sum_groupSizes_true key t⟩

/-- C1: a set-membership filter whose selection list is empty is a
pass-through: `filterBySelection [] get t = t` for every table and
column accessor, and in particular the `filter_data` raw cascade with no
year, an empty Region selection and an empty Category selection returns
the original table unchanged, verified by row-count equality. -/
theorem empty_selection_passthrough :
    (∀ (t : List SRow) (get : SRow → String), filterBySelection [] get t = t) ∧
    (∀ t : List SRow, filterRaw t none [] [] = t ∧
      (filterRaw t none [] []).length = t.length) := by
  constructor
  · intro t get
    simp [filterBySelection]
  · intro t
    constructor <;> simp [filterRaw, filterBySelection, filterByYear]

/-- One row of the per-movie aggregate `movie_stats` of
`Thasmia-dashboard/app.py` (lines 336-344). -/
structure MovieStat where
  movieId : Nat
  title : String
  meanRating : ℚ
  nRatings : Nat
deriving DecidableEq

/-- The comparator of
`sort_values(["mean_rating","n_ratings"], ascending=[False,False])`:
descending mean rating, ties broken by descending rating count. -/
def movieSortLE (a b : MovieStat) : Bool :=
  decide (b.meanRating < a.meanRating ∨
    (a.meanRating = b.meanRating ∧ b.nRatings ≤ a.nRatings))

/-- Embeds `movie_stats.sort_values(["mean_rating","n_ratings"], ascending=[False,False])`. -/
def sortMovieStats (t : List MovieStat) : List MovieStat :=
  t.mergeSort movieSortLE

/-- Embeds `rank(table, [(m,desc)], topN)`: sort descending, truncate with
`.head(top_n)`. -/
def rankMovies (t : List MovieStat) (topN : Nat) : List MovieStat :=
  (sortMovieStats t).take topN

/-- C9: ranking is stable under enlarging the truncation: the first `N`
rows of `rankMovies t (N + k)` are exactly `rankMovies t N`, because
both calls sort the same table the same way before truncating. -/
theorem rank_topN_stable (t : List MovieStat) (N k : Nat) :
    (rankMovies t (N + k)).take N = rankMovies t N := by
  unfold rankMovies
  rw [List.take_take, inf_eq_left.mpr (Nat.le_add_right N k)]

/-- pandas mean of a group of values (groups produced by group-by are
never empty, so the `0/0` case is never reached on real groups). -/
def mean (xs : List ℚ) : ℚ := xs.sum / xs.length

/-- One row of the aggregate produced by
`df.groupby(key).agg(n=("rating","count"), mean_rating=("rating","mean"))`
in `ishrats_dashboard/app.py` (top_movies, lines 149-157). -/
structure AggRow (K : Type*) where
  key : K
  n : Nat
  meanRating : ℚ
deriving DecidableEq

/-- The group-by/aggregate of `top_movies`: one row per distinct key
present in the table, carrying the group size and the group mean. -/
def aggStats {R K : Type*} [DecidableEq K] (key : R → K) (val : R → ℚ)
    (t : List R) : List (AggRow K) :=
  ((t.map key).dedup).map (fun k =>
    { key := k
      n := (t.filter (fun r => decide (key r = k))).length
      meanRating := mean ((t.filter (fun r => decide (key r = k))).map val) })

/-- The post-aggregation minimum-count threshold
`.query("n >= @min_count")`: keeps the aggregate rows whose group size
reaches the threshold. -/
def minCountFilter {K : Type*} (minN : Nat) (agg : List (AggRow K)) :
    List (AggRow K) :=
  agg.filter (fun g => decide (minN ≤ g.n))

/-- The four-movie genre scenario of the spec, in exploded form: one
(genre, rating) row per tag. -/
def genreScenario : List (String × ℚ) :=
  [("Action", 4), ("Comedy", 4), ("Comedy", 5), ("Drama", 3), ("Action", 2)]

/-- C6: the minimum-count threshold is a post-aggregation filter: an
aggregate row survives `minCountFilter` exactly when it is a row of the
aggregate and its underlying group size reaches the threshold; on the
concrete genre scenario, threshold 2 removes Drama (count 1) and keeps
Action and Comedy with their aggregate values intact. -/
theorem min_count_threshold_post_aggregation :
    (∀ (R K : Type) (_inst : DecidableEq K) (key : R → K) (val : R → ℚ)
      (t : List R) (minN : Nat) (g : AggRow K),
      g ∈ minCountFilter minN (aggStats key val t) ↔
        g ∈ aggStats key val t ∧ minN ≤ g.n) ∧
    aggStats Prod.fst Prod.snd genreScenario =
      [⟨"Comedy", 2, 9/2⟩, ⟨"Drama", 1, 3⟩, ⟨"Action", 2, 3⟩] ∧
    minCountFilter 2 (aggStats Prod.fst Prod.snd genreScenario) =
      [⟨"Comedy", 2, 9/2⟩, ⟨"Action", 2, 3⟩] := by
  refine ⟨?_, ?_, ?_⟩
  · intro R K _inst key val t minN g
    simp [minCountFilter, List.mem_filter]
  · simp +decide [aggStats, genreScenario, mean]
    norm_num
  · simp +decide [aggStats, genreScenario, mean, minCountFilter]
    norm_num

/-- One row of `genre_counts` in `Thasmia-dashboard/app.py` (Q1): a
genre label and its rating count. -/
structure GenreCount where
  genres : String
  count : Nat
deriving DecidableEq

/-- A `genre_counts` row after the `pct` column has been added. -/
structure PctRow where
  genres : String
  count : Nat
  pct : ℚ
deriving DecidableEq

/-- Embeds `total = genre_counts["count"].sum()`. -/
def totalCount (rows : List GenreCount) : Nat :=
  (rows.map (fun g => g.count)).sum

/-- The clamped denominator `max(total, 1)` of
`Thasmia-dashboard/app.py` line 119 and `arun_dashboard/app.py` line 74. -/
def pctDenom (rows : List GenreCount) : Nat :=
  max (totalCount rows) 1

/-- Embeds `genre_counts["pct"] = 100 * genre_counts["count"] / max(total, 1)`. -/
def withPct (rows : List GenreCount) : List PctRow :=
  rows.map (fun g =>
    ⟨g.genres, g.count, 100 * (g.count : ℚ) / (pctDenom rows : ℚ)⟩)

/-- The "Other" bucketing of `Thasmia-dashboard/app.py` lines 122-132:
rows at or above the threshold are kept (`major`), rows below it
(`minor`) are replaced, when any exist, by one synthetic `"Other"` row
holding the sum of their counts and percentages. -/
def displayRows (minPct : ℚ) (rows : List GenreCount) : List PctRow :=
  let wp := withPct rows
  let major := wp.filter (fun g => decide (minPct ≤ g.pct))
  let minor := wp.filter (fun g => decide (g.pct < minPct))
  if minor = [] then major
  else major ++ [⟨"Other", (minor.map (fun g => g.count)).sum,
    (minor.map (fun g => g.pct)).sum⟩]

lemma sum_count_filter_split (minPct : ℚ) (wp : List PctRow) :
    ((wp.filter (fun g => decide (minPct ≤ g.pct))).map (fun g => g.count)).sum
      + ((wp.filter (fun g => decide (g.pct < minPct))).map (fun g => g.count)).sum
      = (wp.map (fun g => g.count)).sum := by
  induction wp with
  | nil => simp
  | cons a l ih =>
    simp only [List.filter_cons]
    by_cases h : minPct ≤ a.pct
    · rw [if_pos (by simpa using h), if_neg (by simpa using not_lt.mpr h)]
      simp only [List.map_cons, List.sum_cons]
      omega
    · rw [if_neg (by simpa using h), if_pos (by simpa using not_le.mp h)]
      simp only [List.map_cons, List.sum_cons]
      omega

lemma withPct_counts (rows : List GenreCount) :
    ((withPct rows).map (fun g => g.count)).sum = totalCount rows := by
  unfold withPct totalCount
  rw [List.map_map]
  rfl

lemma withPct_pct_nonneg (rows : List GenreCount) :
    ∀ g ∈ withPct rows, (0:ℚ) ≤ g.pct := by
  intro g hg
  rcases List.mem_map.mp hg with ⟨c, _, rfl⟩
  have hden : (0:ℚ) < (pctDenom rows : ℚ) := by
    have : 1 ≤ pctDenom rows := le_max_right _ _
    exact_mod_cast Nat.lt_of_lt_of_le Nat.zero_lt_one this
  positivity

/-- C8: "Other" bucketing preserves the count total: for every threshold
and every table, the counts of the displayed rows (including the
synthetic "Other" row when one is produced) sum to the un-bucketed
total; and with threshold `0` nothing is bucketed, the display table is
the percentage-annotated table itself with no "Other" row. -/
theorem other_bucket_preserves_total (minPct : ℚ) (rows : List GenreCount) :
    ((displayRows minPct rows).map (fun g => g.count)).sum = totalCount rows ∧
    displayRows 0 rows = withPct rows := by
  constructor
  · simp only [displayRows]
    by_cases hm : (withPct rows).filter (fun g => decide (g.pct < minPct)) = []
    · rw [if_pos hm]
      have hsplit := sum_count_filter_split minPct (withPct rows)
      rw [hm] at hsplit
      simpa [withPct_counts rows] using hsplit
    · rw [if_neg hm]
      have hsplit := sum_count_filter_split minPct (withPct rows)
      rw [← withPct_counts rows]
      simp only [List.map_append, List.sum_append, List.map_cons,
        List.sum_cons, List.map_nil, List.sum_nil]
      omega
  · simp only [displayRows]
    have hminor : (withPct rows).filter (fun g => decide (g.pct < 0)) = [] := by
      refine List.filter_eq_nil_iff.mpr (fun g hg => ?_)
      simpa using not_lt.mpr (withPct_pct_nonneg rows g hg)
    rw [if_pos hminor]
    refine List.filter_eq_self.mpr (fun g hg => ?_)
    simpa using withPct_pct_nonneg rows g hg

/-- C10: the percentage-of-grand-total denominator is `max(total, 1)`,
hence at least 1 and never zero for any table — in particular the
computation is well defined on the empty table, where the total is 0,
the denominator is 1, and the annotated result is simply empty. -/
theorem pct_total_denominator_clamped :
    (∀ rows : List GenreCount,
      1 ≤ pctDenom rows ∧ (0:ℚ) < (pctDenom rows : ℚ)) ∧
    totalCount [] = 0 ∧ pctDenom [] = 1 ∧ withPct [] = [] := by
  refine ⟨fun rows => ⟨le_max_right _ _, ?_⟩, rfl, rfl, rfl⟩
  have : 1 ≤ pctDenom rows := le_max_right _ _
  exact_mod_cast Nat.lt_of_lt_of_le Nat.zero_lt_one this

/-- pandas `Series.pct_change()` on the year-sorted `Total_Sales` column
(`data_processor.py` line 104): entry 0 is null (`NaN`), entry `i+1` is
`x[i+1] / x[i] - 1`. -/
def pctChange (xs : List ℚ) : List (Option ℚ) :=
  match xs with
  | [] => []
  | _ :: rest => none :: List.zipWith (fun prev x => some (x / prev - 1)) xs rest

/-- Embeds `yearly_agg['Sales_Growth'] = yearly_agg['Total_Sales'].pct_change() * 100`. -/
def salesGrowth (xs : List ℚ) : List (Option ℚ) :=
  (pctChange xs).map (Option.map (fun g => g * 100))

lemma salesGrowth_cons (x : ℚ) (rest : List ℚ) :
    salesGrowth (x :: rest) =
      none :: List.zipWith (fun prev y => some ((y / prev - 1) * 100))
        (x :: rest) rest := by
  simp [salesGrowth, pctChange, List.map_zipWith]

lemma salesGrowth_idx (xs : List ℚ) (i : Nat) :
    (salesGrowth xs)[i + 1]? =
      match xs[i]?, xs[i + 1]? with
      | some p, some y => some (some ((y / p - 1) * 100))
      | _, _ => none := by
  cases xs with
  | nil => simp [salesGrowth, pctChange]
  | cons x rest =>
    rw [salesGrowth_cons, List.getElem?_cons_succ, List.getElem?_zipWith]
    rw [List.getElem?_cons_succ]
    cases (x :: rest)[i]? <;> cases rest[i]? <;> rfl

/-- C4: the period-over-period growth series aligns with the metric
series: the first entry (first period in sorted order) is null — never
zero and never an error; the entry one past a nonzero metric value
equals `(metric[i+1] - metric[i]) / metric[i] * 100`; and for a constant
nonzero metric every entry after the first is exactly 0. -/
theorem growth_series_spec :
    (∀ (x : ℚ) (rest : List ℚ),
      (salesGrowth (x :: rest)).head? = some none ∧
      (salesGrowth (x :: rest)).length = (x :: rest).length) ∧
    (∀ (pre : List ℚ) (prev x : ℚ) (rest : List ℚ), prev ≠ 0 →
      (salesGrowth (pre ++ prev :: x :: rest))[pre.length + 1]? =
        some (some ((x - prev) / prev * 100))) ∧
    (∀ (c : ℚ), c ≠ 0 → ∀ (n i : Nat), 1 ≤ i → i < n →
      (salesGrowth (List.replicate n c))[i]? = some (some 0)) := by
  refine ⟨?_, ?_, ?_⟩
  · intro x rest
    refine ⟨by simp [salesGrowth_cons], ?_⟩
    simp [salesGrowth_cons, List.length_zipWith]
  · intro pre prev x rest hprev
    rw [salesGrowth_idx]
    have h0 : (pre ++ prev :: x :: rest)[pre.length]? = some prev := by
      rw [List.getElem?_append_right (le_refl pre.length)]
      simp
    have h1 : (pre ++ prev :: x :: rest)[pre.length + 1]? = some x := by
      rw [List.getElem?_append_right (Nat.le_succ_of_le (le_refl pre.length))]
      simp [Nat.succ_sub (le_refl pre.length)]
    rw [h0, h1]
    show some (some ((x / prev - 1) * 100)) = some (some ((x - prev) / prev * 100))
    have : (x / prev - 1) * 100 = (x - prev) / prev * 100 := by
      field_simp
    rw [this]
  · intro c hc n i h1 h2
    match i, h1 with
    | j + 1, _ =>
      rw [salesGrowth_idx]
      have hj : (List.replicate n c)[j]? = some c := by
        simp only [List.getElem?_replicate]
        rw [if_pos (by omega)]
      have hj1 : (List.replicate n c)[j + 1]? = some c := by
        simp only [List.getElem?_replicate]
        rw [if_pos (by omega)]
      rw [hj, hj1]
      show some (some ((c / c - 1) * 100)) = some (some 0)
      rw [div_self hc]
      norm_num


/-- Witness for the growth-series theorem: on the series `[2, 4, 4]` the
growth at position 1 is +100% and on a constant series `[5, 5, 5]` the
growth at position 2 is 0. -/
theorem growth_series_spec_witness :
    (salesGrowth [(2:ℚ), 4, 4])[1]? = some (some 100) ∧
    (salesGrowth (List.replicate 3 (5:ℚ)))[2]? = some (some 0) := by
  constructor
  · have h := growth_series_spec.2.1 [] (2:ℚ) 4 [4] (by norm_num)
    norm_num at h
    exact h
  · exact growth_series_spec.2.2 5 (by norm_num) 3 2 (by norm_num) (by norm_num)

/-- pandas sample variance (`ddof = 1`): `Σ (x - mean)² / (n - 1)`,
null (`NaN`) when `n < 2`. -/
def sampleVar (xs : List ℚ) : Option ℚ :=
  if xs.length < 2 then none
  else some ((xs.map (fun x => (x - mean xs) ^ 2)).sum / ((xs.length : ℚ) - 1))

/-- Embeds `std_rating` of `arun_dashboard/app.py` lines 119-127: the sample
standard deviation of a group, null when fewer than two values. -/
noncomputable def sampleStd (xs : List ℚ) : Option ℝ :=
  (sampleVar xs).map (fun v => Real.sqrt ((v : ℚ) : ℝ))

/-- Embeds `genre_stats['se'] = std_rating / np.sqrt(n_ratings)` (line 129);
null propagates from a null std. -/
noncomputable def stdErr (xs : List ℚ) : Option ℝ :=
  (sampleStd xs).map (fun s => s / Real.sqrt ((xs.length : ℕ) : ℝ))

/-- Embeds `ci_lower = mean_rating - 1.96 * se` (line 130). -/
noncomputable def ciLower (xs : List ℚ) : Option ℝ :=
  (stdErr xs).map (fun se => ((mean xs : ℚ) : ℝ) - 1.96 * se)

/-- Embeds `ci_upper = mean_rating + 1.96 * se` (line 131). -/
noncomputable def ciUpper (xs : List ℚ) : Option ℝ :=
  (stdErr xs).map (fun se => ((mean xs : ℚ) : ℝ) + 1.96 * se)

/-- C3: for a group with sample std `s` and count `n` the computed 95%
interval is exactly `[m - 1.96*s/√n, m + 1.96*s/√n]`; whenever both
bounds exist they are symmetric around the mean; and when `n < 2` (std
undefined) both bounds are null, never zero. -/
theorem confidence_interval_spec (xs : List ℚ) :
    (xs.length < 2 → ciLower xs = none ∧ ciUpper xs = none) ∧
    (∀ s : ℝ, sampleStd xs = some s →
      ciLower xs = some (((mean xs : ℚ) : ℝ)
        - 1.96 * s / Real.sqrt ((xs.length : ℕ) : ℝ)) ∧
      ciUpper xs = some (((mean xs : ℚ) : ℝ)
        + 1.96 * s / Real.sqrt ((xs.length : ℕ) : ℝ))) ∧
    (∀ l u : ℝ, ciLower xs = some l → ciUpper xs = some u →
      l + u = 2 * ((mean xs : ℚ) : ℝ)) := by
  refine ⟨?_, ?_, ?_⟩
  · intro h
    constructor <;> simp [ciLower, ciUpper, stdErr, sampleStd, sampleVar, h]
  · intro s hs
    constructor <;> simp [ciLower, ciUpper, stdErr, hs, mul_div_assoc]
  · intro l u hl hu
    rcases hv : sampleVar xs with _ | v
    · simp [ciLower, stdErr, sampleStd, hv] at hl
    · simp only [ciLower, ciUpper, stdErr, sampleStd, hv, Option.map_some',
        Option.some.injEq] at hl hu
      rw [← hl, ← hu]
      ring

/-- Witness for the confidence-interval theorem: on the two-element
group `[3, 5]` (mean 4, sample variance 2) both bounds exist, match the
formula with `s = √2`, and sum to twice the mean; on the singleton group
`[4]` both bounds are null. -/
theorem confidence_interval_spec_witness :
    ciLower [(3:ℚ), 5] = some (((mean [(3:ℚ), 5] : ℚ) : ℝ)
      - 1.96 * Real.sqrt 2 / Real.sqrt ((List.length [(3:ℚ), 5] : ℕ) : ℝ)) ∧
    ciUpper [(3:ℚ), 5] = some (((mean [(3:ℚ), 5] : ℚ) : ℝ)
      + 1.96 * Real.sqrt 2 / Real.sqrt ((List.length [(3:ℚ), 5] : ℕ) : ℝ)) ∧
    (((mean [(3:ℚ), 5] : ℚ) : ℝ)
        - 1.96 * Real.sqrt 2 / Real.sqrt ((List.length [(3:ℚ), 5] : ℕ) : ℝ))
      + (((mean [(3:ℚ), 5] : ℚ) : ℝ)
        + 1.96 * Real.sqrt 2 / Real.sqrt ((List.length [(3:ℚ), 5] : ℕ) : ℝ))
      = 2 * ((mean [(3:ℚ), 5] : ℚ) : ℝ) ∧
    ciLower [(4:ℚ)] = none ∧ ciUpper [(4:ℚ)] = none := by
  have hvar : sampleVar [(3:ℚ), 5] = some 2 := by
    norm_num [sampleVar, mean]
  have hs : sampleStd [(3:ℚ), 5] = some (Real.sqrt 2) := by
    rw [sampleStd, hvar]
    norm_num
  have h2 := (confidence_interval_spec [(3:ℚ), 5]).2.1 (Real.sqrt 2) hs
  have h3 := (confidence_interval_spec [(3:ℚ), 5]).2.2 _ _ h2.1 h2.2
  have h1 := (confidence_interval_spec [(4:ℚ)]).1 (by norm_num)
  exact ⟨h2.1, h2.2, h3, h1.1, h1.2⟩

/-- Embeds `total_sales = year_filtered['Sales'].sum()`
(`superstore_dashboard.py` line 247). -/
def totalSalesKpi (t : List SRow) : ℚ :=
  (t.map (fun r => r.sales)).sum

/-- Embeds `total_orders = year_filtered['Order ID'].nunique()` (line 248). -/
def totalOrdersKpi (t : List SRow) : Nat :=
  ((t.map (fun r => r.orderId)).dedup).length

/-- Embeds `avg_order_value = total_sales / total_orders if total_orders > 0
else 0` (`superstore_dashboard.py` line 255): the value is always a
number; a zero denominator is replaced by the number 0. -/
def avgOrderValue (t : List SRow) : Option ℚ :=
  if 0 < totalOrdersKpi t then
    some (totalSalesKpi t / (totalOrdersKpi t : ℚ))
  else some 0

/-- C5 counterexample: on the empty filtered table the denominator
`total_orders` is zero, and `avg_order_value` is the number 0, not a
null — contradicting "a zero denominator yields a null result … never
substitutes zero for the undefined value". -/
theorem zero_denominator_yields_zero_not_null :
    totalOrdersKpi [] = 0 ∧ avgOrderValue [] = some 0 ∧
    avgOrderValue [] ≠ none := by
  refine ⟨rfl, ?_, ?_⟩ <;> simp [avgOrderValue, totalOrdersKpi]

/-- C5 amended: the ratio KPI never raises (it is a total function into
non-null values), and a zero denominator is guarded by the explicit
conditional, which substitutes the number 0 — not null — while a
positive denominator yields the exact quotient. -/
theorem ratio_kpi_zero_guard (t : List SRow) :
    (totalOrdersKpi t = 0 → avgOrderValue t = some 0) ∧
    (0 < totalOrdersKpi t →
      avgOrderValue t = some (totalSalesKpi t / (totalOrdersKpi t : ℚ))) ∧
    avgOrderValue t ≠ none := by
  refine ⟨fun h => ?_, fun h => ?_, ?_⟩
  · simp [avgOrderValue, h]
  · simp [avgOrderValue, h]
  · unfold avgOrderValue
    by_cases h : 0 < totalOrdersKpi t <;> simp [h]

/-- Witness for the amended C5 theorem: the zero-denominator branch on
the empty table and the positive branch on a one-row table. -/
theorem ratio_kpi_zero_guard_witness :
    avgOrderValue [] = some 0 ∧
    avgOrderValue [⟨2017, "West", "Technology", 10, "o1", "c1"⟩]
      = some (totalSalesKpi [⟨2017, "West", "Technology", 10, "o1", "c1"⟩]
        / (totalOrdersKpi [⟨2017, "West", "Technology", 10, "o1", "c1"⟩] : ℚ)) := by
  constructor
  · exact (ratio_kpi_zero_guard []).1 rfl
  · exact (ratio_kpi_zero_guard _).2.1 (by simp [totalOrdersKpi])

/-- A source-file store: `none` for a missing path, `some rows`
otherwise; a present file with no rows is empty (pandas raises
`EmptyDataError` on it). -/
def FileStore : Type := String → Option (List (List String))

/-- Outcome of `examine_data.load_dataset`: either the loaded table or a
termination of the whole process via `sys.exit(code)`. -/
inductive LoadOutcome
  | ok (rows : List (List String))
  | exitProcess (code : Nat)
deriving DecidableEq

/-- Embeds `examine_data.load_dataset` (lines 37-50): `FileNotFoundError` and
`EmptyDataError` are both caught and answered with `sys.exit(1)`, which
terminates the whole process. -/
def load_dataset (fs : FileStore) (path : String) : LoadOutcome :=
  match fs path with
  | none => .exitProcess 1
  | some [] => .exitProcess 1
  | some rows => .ok rows

/-- What `Thasmia-dashboard/app.py` `main` does at the load boundary:
render the view, or show an error message and halt only that view
(`return`). -/
inductive ViewOutcome
  | rendered (rows : List (List String))
  | haltedView (msg : String)
deriving DecidableEq

/-- Embeds `load_movie_ratings` wrapped by the `try/except FileNotFoundError`
of `Thasmia-dashboard/app.py` `main` (lines 41-49). -/
def thasmiaMain (fs : FileStore) (path : String) : ViewOutcome :=
  match fs path with
  | none => .haltedView
      "Could not find data file at ../data/movie_ratings.csv. Verify the project layout matches the course repo."
  | some rows => .rendered rows

/-- C7 counterexample: on a missing source file, `load_dataset`
terminates the whole process with exit status 1 — it does not recover at
the boundary — contradicting "loading never crashes (terminates) the
whole process". -/
theorem load_dataset_exits_process_on_missing_file :
    load_dataset (fun _ => none) "superstore_data.csv"
        = .exitProcess 1 ∧
    load_dataset (fun _ => some []) "superstore_data.csv"
        = .exitProcess 1 ∧
    load_dataset (fun _ => none) "superstore_data.csv"
        ≠ .ok [] := by
  refine ⟨rfl, rfl, ?_⟩
  simp [load_dataset]

/-- C7 amended: the Thasmia dashboard handles a missing source file at
the presentation boundary — it shows a message and halts only that view,
and renders normally when the file is present — while
`examine_data.load_dataset` instead terminates the whole process with
exit status 1 on a missing or empty file. -/
theorem load_failure_boundary (fs : FileStore) (path : String) :
    (fs path = none →
      thasmiaMain fs path = .haltedView
        "Could not find data file at ../data/movie_ratings.csv. Verify the project layout matches the course repo." ∧
      load_dataset fs path = .exitProcess 1) ∧
    (fs path = some [] → load_dataset fs path = .exitProcess 1) ∧
    (∀ rows, fs path = some rows → rows ≠ [] →
      load_dataset fs path = .ok rows ∧
      thasmiaMain fs path = .rendered rows) := by
  refine ⟨fun h => ?_, fun h => ?_, fun rows h hne => ?_⟩
  · exact ⟨by simp [thasmiaMain, h], by simp [load_dataset, h]⟩
  · simp [load_dataset, h]
  · cases rows with
    | nil => exact absurd rfl hne
    | cons a l => exact ⟨by simp [load_dataset, h], by simp [thasmiaMain, h]⟩

/-- Witness for the amended C7 theorem: a missing file, an empty file
and a one-row file, each at a concrete store. -/
theorem load_failure_boundary_witness :
    thasmiaMain (fun _ => none) "p" = .haltedView
      "Could not find data file at ../data/movie_ratings.csv. Verify the project layout matches the course repo." ∧
    load_dataset (fun _ => none) "p" = .exitProcess 1 ∧
    load_dataset (fun _ => some []) "p" = .exitProcess 1 ∧
    load_dataset (fun _ => some [["r"]]) "p" = .ok [["r"]] ∧
    thasmiaMain (fun _ => some [["r"]]) "p" = .rendered [["r"]] := by
  have h1 := (load_failure_boundary (fun _ => none) "p").1 rfl
  have h2 := (load_failure_boundary (fun _ => some []) "p").2.1 rfl
  have h3 := (load_failure_boundary (fun _ => some [["r"]]) "p").2.2
    [["r"]] rfl (by simp)
  exact ⟨h1.1, h1.2, h2, h3.1, h3.2⟩

end Dashboards
